import Mathlib

/-!
Verification of the DriveTestDashboard normalization / aggregation / query engine.

A shallow embedding of `src/DriveTestDashboard.js` (the CSV normalization
pipeline `processCsvData`, the coordinate validator `isValidCoordinate`,
the column auto-mapper from `handleCsvUpload`, the ingestion entry point
`applyCsvData`, the aggregation helpers `avg` / `groupBy` / `percentile`,
and the rule-based query engine `askLocalAI`).

Modelling conventions:
* JavaScript numbers are modelled by `JsNum`: NaN, the two infinities, or a
  finite rational.  Arithmetic on finite values is exact rational arithmetic.
* CSV cell values (after PapaParse with `dynamicTyping`) are `JsVal`:
  `undefined`, a string, or a number.
* `Math.random()` is an oracle `rnd : ℕ → ℕ → ℚ` giving the value consumed by
  row `i`, call slot `j` (0 = throughput default, 1 = latitude jitter,
  2 = longitude jitter).
* `Date` is modelled as milliseconds since the Unix epoch together with an
  ambient runtime timezone offset `tz` (minutes east of UTC); `getHours`,
  `setHours`, `getDate` operate in that local frame exactly as in ECMAScript.
* Locale-dependent rendering (`toLocaleString`) is modelled as plain decimal
  digit rendering, and `toDateString` by the local civil date triple.
* A JS exception is modelled by `Option.none` in `askLocalAI` (the only
  reachable property access on a possibly-`undefined` value).
-/

set_option maxRecDepth 2000

namespace DriveTest

/-- A JavaScript number: NaN, +Infinity, -Infinity, or a finite value
(modelled as an exact rational). -/
inductive JsNum where
  | nan
  | posInf
  | negInf
  | num (q : ℚ)
deriving DecidableEq

/-- JS truthiness of a number: `NaN` and `0` are falsy, everything else
(including the infinities) is truthy. -/
def JsNum.truthy : JsNum → Bool
  | .nan => false
  | .posInf => true
  | .negInf => true
  | .num q => q ≠ 0

/-- `isNaN` on a number. -/
def JsNum.isNan : JsNum → Bool
  | .nan => true
  | _ => false

/-- `Number.isFinite`. -/
def JsNum.isFinite : JsNum → Bool
  | .num _ => true
  | _ => false

/-- The finite value, if any. -/
def JsNum.toFinite? : JsNum → Option ℚ
  | .num q => some q
  | _ => none

/-- `x >= c` for a rational constant `c`: false whenever `x` is NaN. -/
def JsNum.geQ : JsNum → ℚ → Bool
  | .nan, _ => false
  | .posInf, _ => true
  | .negInf, _ => false
  | .num q, c => c ≤ q

/-- `x <= c` for a rational constant `c`: false whenever `x` is NaN. -/
def JsNum.leQ : JsNum → ℚ → Bool
  | .nan, _ => false
  | .posInf, _ => false
  | .negInf, _ => true
  | .num q, c => q ≤ c

/-- `x !== c` (strict inequality against a finite constant): true for NaN and
the infinities. -/
def JsNum.strictNeQ : JsNum → ℚ → Bool
  | .nan, _ => true
  | .posInf, _ => true
  | .negInf, _ => true
  | .num q, c => q ≠ c

/-- A CSV cell / JS value as it reaches the normalizer: `undefined`, a string,
or a number (PapaParse `dynamicTyping` already converts numeric-looking
cells). -/
inductive JsVal where
  | undefined
  | vstr (s : String)
  | vnum (n : JsNum)
deriving DecidableEq

/-- JS truthiness of a value: `undefined`, `""`, `0` and `NaN` are falsy. -/
def JsVal.truthy : JsVal → Bool
  | .undefined => false
  | .vstr s => s ≠ ""
  | .vnum n => n.truthy

/-- Whitespace accepted by `parseFloat` / `trim`. -/
def isJsSpace (c : Char) : Bool :=
  c = ' ' || c = '\t' || c = '\n' || c = '\r'

/-- Value of a list of decimal digit characters. -/
def digitsVal (cs : List Char) : ℕ :=
  cs.foldl (fun a c => a * 10 + (c.toNat - '0'.toNat)) 0

/-- Longest prefix of decimal digits and the rest. -/
def splitDigits (cs : List Char) : List Char × List Char :=
  (cs.takeWhile Char.isDigit, cs.dropWhile Char.isDigit)

/-- `parseFloat` on a list of characters after sign handling: an optional
integer part, optional fraction, optional exponent.  Returns the parsed
magnitude, or `none` when no digit is found (⇒ NaN). -/
def parseDecimal (cs : List Char) : Option ℚ :=
  let (ip, rest) := splitDigits cs
  let (fp, rest2) :=
    match rest with
    | '.' :: t => splitDigits t
    | _ => ([], rest)
  if ip.isEmpty ∧ fp.isEmpty then none
  else
    let mantissa : ℚ := (digitsVal ip : ℚ) + (digitsVal fp : ℚ) / (10 ^ fp.length : ℕ)
    -- optional exponent, consumed only when a complete `e[+-]?digits` follows
    let expVal : ℤ :=
      match rest2 with
      | 'e' :: t | 'E' :: t =>
        match t with
        | '+' :: u => (if (splitDigits u).1.isEmpty then 0 else (digitsVal (splitDigits u).1 : ℤ))
        | '-' :: u => (if (splitDigits u).1.isEmpty then 0 else -(digitsVal (splitDigits u).1 : ℤ))
        | u => (if (splitDigits u).1.isEmpty then 0 else (digitsVal (splitDigits u).1 : ℤ))
      | _ => 0
    some (mantissa * (10 : ℚ) ^ expVal)

/-- JS `parseFloat` on a string: skip leading whitespace, optional sign,
`Infinity`, else a decimal literal prefix; NaN when nothing parses. -/
def parseFloatStr (s : String) : JsNum :=
  let cs := s.toList.dropWhile isJsSpace
  let (neg, cs) :=
    match cs with
    | '-' :: t => (true, t)
    | '+' :: t => (false, t)
    | t => (false, t)
  if ("Infinity".toList).isPrefixOf cs then
    if neg then .negInf else .posInf
  else
    match parseDecimal cs with
    | none => .nan
    | some q => .num (if neg then -q else q)

/-- JS `parseFloat` applied to a cell value: `undefined` gives NaN, a number
is returned unchanged (string round-trip is exact for our model), a string is
lexed. -/
def parseFloat : JsVal → JsNum
  | .undefined => .nan
  | .vnum n => n
  | .vstr s => parseFloatStr s

/-- `x || d` default substitution on numbers (source pattern
`parseFloat(...) || default`): the default is taken when `x` is falsy,
i.e. NaN or exactly 0. -/
def jsOrNum (x : JsNum) (d : ℚ) : JsNum :=
  if x.truthy then x else .num d

/-- `isValidCoordinate(lat, lng)` from the source: both arguments are passed
through `parseFloat`, then `!isNaN && lat ∈ [-90,90] && lng ∈ [-180,180] &&
lat !== 0 && lng !== 0`.  Note the last two conjuncts reject any pair in
which either coordinate alone is zero. -/
def isValidCoordinate (lat lng : JsVal) : Bool :=
  !(parseFloat lat).isNan &&
  !(parseFloat lng).isNan &&
  (parseFloat lat).geQ (-90) &&
  (parseFloat lat).leQ 90 &&
  (parseFloat lng).geQ (-180) &&
  (parseFloat lng).leQ 180 &&
  (parseFloat lat).strictNeQ 0 &&
  (parseFloat lng).strictNeQ 0

/-- The coordinate-pair predicate as worded by the spec (§4.1): both values
parse as finite numbers, `lat ∈ [-90,90]`, `lon ∈ [-180,180]`, and the pair
is not the exact sentinel `(0,0)`.  Stated for comparison with
`isValidCoordinate`. -/
def specValidCoordinate (lat lng : JsVal) : Bool :=
  match (parseFloat lat).toFinite?, (parseFloat lng).toFinite? with
  | some la, some lo =>
    (-90 ≤ la) && (la ≤ 90) && (-180 ≤ lo) && (lo ≤ 180) && !(la = 0 ∧ lo = 0)
  | _, _ => false

/-- The signal classifier on a finite RSRP value, first match wins:
`rsrp ≥ -70 → 1`; else `rsrp ≥ -85 → 2`; else `rsrp ≥ -100 → 3`; else `4`. -/
def classify (rsrp : ℚ) : ℕ :=
  if rsrp ≥ -70 then 1
  else if rsrp ≥ -85 then 2
  else if rsrp ≥ -100 then 3
  else 4

/-- The same classifier as executed in `processCsvData` on the resolved
(possibly non-finite) rsrp value: `signalClass = 4` unless one of the `>=`
comparisons holds (all comparisons are false on NaN). -/
def classifyJs (rsrp : JsNum) : ℕ :=
  if rsrp.geQ (-70) then 1
  else if rsrp.geQ (-85) then 2
  else if rsrp.geQ (-100) then 3
  else 4

/-- `ToInt32` (the `n | 0` coercion) on an exact integer. -/
def toInt32 (n : ℤ) : ℤ :=
  let m := n % 4294967296
  if m < 2147483648 then m else m - 4294967296

/-- `clampInt(n, lo, hi) = Math.max(lo, Math.min(hi, n | 0))`. -/
def clampInt (n lo hi : ℤ) : ℤ :=
  max lo (min hi (toInt32 n))

/-- The `n | 0` step applied to a possibly-undefined regex capture
(`undefined | 0 === 0`). -/
def jsOrZero : Option ℕ → ℤ
  | none => 0
  | some k => (k : ℤ)

/-- `Number.toFixed(1)` followed by `parseFloat` (the per-field rounding in
`processCsvData`): round the value to one decimal place, half away from the
smaller value (ECMAScript picks the larger candidate on ties); NaN and the
infinities survive the round trip. -/
def jsRound1 : JsNum → JsNum
  | .nan => .nan
  | .posInf => .posInf
  | .negInf => .negInf
  | .num q => .num ((round (10 * q) : ℤ) / 10)

/-! ## Date model

A `Date` instant is milliseconds since the Unix epoch (`ℤ`); an invalid date
is `Option.none`.  The ambient runtime timezone is an explicit offset `tz`
in minutes east of UTC, so `getHours` etc. read the instant shifted by
`tz * 60000`. -/

/-- Days-from-civil (proleptic Gregorian), the standard era-based algorithm:
the day number of `y-m-d` relative to 1970-01-01. -/
def daysFromCivil (y m d : ℤ) : ℤ :=
  let y1 := if m ≤ 2 then y - 1 else y
  let era := Int.fdiv y1 400
  let yoe := y1 - era * 400
  let mp := if m > 2 then m - 3 else m + 9
  let doy := (153 * mp + 2) / 5 + d - 1
  let doe := yoe * 365 + yoe / 4 - yoe / 100 + doy
  era * 146097 + doe - 719468

/-- Civil-from-days: the `(year, month, day)` of a day number relative to
1970-01-01. -/
def civilFromDays (z0 : ℤ) : ℤ × ℤ × ℤ :=
  let z := z0 + 719468
  let era := Int.fdiv z 146097
  let doe := z - era * 146097
  let yoe := (doe - doe / 1460 + doe / 36524 - doe / 146096) / 365
  let doy := doe - (365 * yoe + yoe / 4 - yoe / 100)
  let mp := (5 * doy + 2) / 153
  let d := doy - (153 * mp + 2) / 5 + 1
  let m := if mp < 10 then mp + 3 else mp - 9
  let y := (if m ≤ 2 then yoe + era * 400 + 1 else yoe + era * 400)
  (y, m, d)

/-- Whether `y` is a Gregorian leap year. -/
def isLeapYear (y : ℤ) : Bool :=
  (y % 4 = 0 ∧ y % 100 ≠ 0) ∨ y % 400 = 0

/-- Number of days in month `m` of year `y`. -/
def daysInMonth (y m : ℤ) : ℤ :=
  if m = 2 then (if isLeapYear y then 29 else 28)
  else if m = 4 ∨ m = 6 ∨ m = 9 ∨ m = 11 then 30
  else 31

def msPerDay : ℤ := 86400000
def msPerHour : ℤ := 3600000
def msPerMinute : ℤ := 60000

/-- Local milliseconds corresponding to a UTC instant under offset `tz`
(minutes east of UTC). -/
def localMs (tz ms : ℤ) : ℤ := ms + tz * msPerMinute

/-- `Date.prototype.getHours` under runtime offset `tz`. -/
def getHours (tz ms : ℤ) : ℤ :=
  (Int.fdiv (localMs tz ms) msPerHour).emod 24

/-- `Date.prototype.getDate` (local day of month) under runtime offset `tz`. -/
def getDate (tz ms : ℤ) : ℤ :=
  (civilFromDays (Int.fdiv (localMs tz ms) msPerDay)).2.2

/-- `Date.prototype.toDateString` modelled as the local civil date triple
(the label is a deterministic rendering of exactly this data). -/
def toDateTriple (tz ms : ℤ) : ℤ × ℤ × ℤ :=
  civilFromDays (Int.fdiv (localMs tz ms) msPerDay)

/-- `d.setHours(h, 0, 0, 0)`: keep the local calendar day, set the local
hour to `h` and zero the smaller fields. -/
def setHoursTo (tz h ms : ℤ) : ℤ :=
  let lm := localMs tz ms
  let dayStart := lm - lm.emod msPerDay
  dayStart + h * msPerHour - tz * msPerMinute

/-- `d.setDate(d.getDate() + k)`: JS normalizes day-of-month overflow, so the
net effect is adding exactly `k` days. -/
def addDays (k ms : ℤ) : ℤ := ms + k * msPerDay

/-- Split a character list on a separator character. -/
def splitOnChar (sep : Char) (cs : List Char) : List (List Char) :=
  match cs with
  | [] => [[]]
  | c :: t =>
    let r := splitOnChar sep t
    if c = sep then [] :: r
    else
      match r with
      | [] => [[c]]
      | h :: rs => (c :: h) :: rs

/-- Parse a list of characters as an unsigned decimal number of exactly
`k` digits. -/
def fixedDigits (k : ℕ) (cs : List Char) : Option ℕ :=
  if cs.length = k ∧ cs.all Char.isDigit then some (digitsVal cs) else none

/-- Parse the `YYYY-MM-DD` date part of an ISO string into a day number,
validating the month and the day against the month length. -/
def parseIsoDate (cs : List Char) : Option ℤ :=
  match splitOnChar '-' cs with
  | [ys, ms, ds] =>
    match fixedDigits 4 ys, fixedDigits 2 ms, fixedDigits 2 ds with
    | some y, some m, some d =>
      if 1 ≤ m ∧ m ≤ 12 ∧ 1 ≤ d ∧ (d : ℤ) ≤ daysInMonth y m then
        some (daysFromCivil y m d)
      else none
    | _, _, _ => none
  | _ => none

/-- Parse the `HH:MM[:SS[.sss]]` time part of an ISO string into
milliseconds from local midnight. -/
def parseIsoTime (cs : List Char) : Option ℤ :=
  let (secPart, fracMs) :=
    match splitOnChar '.' cs with
    | [a, f] => (a, if f.all Char.isDigit ∧ f.length ≥ 1 then
        some (digitsVal ((f ++ ['0', '0', '0']).take 3)) else none)
    | [a] => (a, some 0)
    | _ => (cs, none)
  match fracMs with
  | none => none
  | some fr =>
    match splitOnChar ':' secPart with
    | [hs, mins] =>
      match fixedDigits 2 hs, fixedDigits 2 mins with
      | some h, some mi =>
        if h ≤ 23 ∧ mi ≤ 59 then some ((h : ℤ) * msPerHour + (mi : ℤ) * msPerMinute) else none
      | _, _ => none
    | [hs, mins, ss] =>
      match fixedDigits 2 hs, fixedDigits 2 mins, fixedDigits 2 ss with
      | some h, some mi, some s =>
        if h ≤ 23 ∧ mi ≤ 59 ∧ s ≤ 59 then
          some ((h : ℤ) * msPerHour + (mi : ℤ) * msPerMinute + (s : ℤ) * 1000 + (fr : ℤ))
        else none
      | _, _, _ => none
    | _ => none

/-- `new Date(string)` for the ISO 8601 format (the format ECMAScript
guarantees): a date-only form is interpreted as UTC midnight, a date-time
form with a trailing `Z` as UTC, a date-time form without an offset as local
time (shifted by the runtime offset `tz`).  Anything else is an invalid
date. -/
def parseDateString (tz : ℤ) (s : String) : Option ℤ :=
  match splitOnChar 'T' s.toList with
  | [datePart] =>
    (parseIsoDate datePart).map (fun days => days * msPerDay)
  | [datePart, timePart] =>
    let (timePart, isUtc) :=
      match timePart.reverse with
      | 'Z' :: t => (t.reverse, true)
      | _ => (timePart, false)
    match parseIsoDate datePart, parseIsoTime timePart with
    | some days, some tms =>
      let ms := days * msPerDay + tms
      some (if isUtc then ms else ms - tz * msPerMinute)
    | _, _ => none
  | _ => none

/-- `new Date(v)` on a cell value: a number is epoch milliseconds (truncated
toward zero), a string is parsed, `undefined` / non-finite give an invalid
date. -/
def newDate (tz : ℤ) : JsVal → Option ℤ
  | .undefined => none
  | .vnum .nan => none
  | .vnum .posInf => none
  | .vnum .negInf => none
  | .vnum (.num q) => some (q.num / (q.den : ℤ))
  | .vstr s => parseDateString tz s

/-! ## Field mapping and rows -/

/-- The canonical-field → source-column mapping (empty string = unmapped),
exactly the `fieldMapping` state object. -/
structure FieldMapping where
  timestamp : String
  rsrp : String
  rsrq : String
  sinr : String
  technology : String
  location : String
  throughput : String
  latitude : String
  longitude : String
deriving DecidableEq

/-- The all-empty mapping. -/
def FieldMapping.empty : FieldMapping :=
  ⟨"", "", "", "", "", "", "", "", ""⟩

/-- A raw CSV row: an association from column names to cell values;
`row[col]` on an absent column is `undefined`. -/
def Row : Type := List (String × JsVal)

/-- `row[col]` lookup. -/
def rowGet (row : Row) (col : String) : JsVal :=
  match row.find? (fun p => p.1 = col) with
  | some p => p.2
  | none => .undefined

/-- The latitude header patterns of `detectCoordinateColumns`, in order. -/
def latPatterns : List String :=
  ["lat", "latitude", "Lat", "Latitude", "LAT", "LATITUDE",
   "lat_deg", "latitude_deg", "lat_decimal", "latitude_decimal"]

/-- The longitude header patterns of `detectCoordinateColumns`, in order. -/
def lngPatterns : List String :=
  ["lng", "lon", "long", "longitude", "Lng", "Lon", "Long",
   "Longitude", "LNG", "LON", "LONG", "LONGITUDE",
   "lng_deg", "lon_deg", "longitude_deg", "long_decimal"]

/-- `detectCoordinateColumns(headers)`: for each axis, the first pattern that
occurs verbatim among the headers (first-match-wins over the pattern list). -/
def detectCoordinateColumns (headers : List String) : Option String × Option String :=
  (latPatterns.find? (fun p => headers.contains p),
   lngPatterns.find? (fun p => headers.contains p))

/-- Whether `sub` occurs as a contiguous run inside `s`. -/
def isInfixChars (sub : List Char) : List Char → Bool
  | [] => sub.isEmpty
  | c :: t => sub.isPrefixOf (c :: t) || isInfixChars sub t

/-- Substring test (`String.includes` of JS). -/
def jsIncludes (s sub : String) : Bool :=
  isInfixChars sub.toList s.toList

/-- ASCII lower-casing (model of `String.prototype.toLowerCase` on the ASCII
range). -/
def charLower (c : Char) : Char :=
  if 'A' ≤ c ∧ c ≤ 'Z' then Char.ofNat (c.toNat + 32) else c

/-- ASCII lower-casing of a string. -/
def toLowerString (s : String) : String := String.mk (s.toList.map charLower)

/-- One step of the auto-mapping `headers.forEach` of `handleCsvUpload`:
fill each still-empty canonical field whose cue matches this header. -/
def autoMapStep (m : FieldMapping) (h : String) : FieldMapping :=
  let lower := toLowerString h
  let m := if m.timestamp = "" ∧ (jsIncludes lower "time" ∨ jsIncludes lower "date" ∨
      jsIncludes lower "timestamp") then { m with timestamp := h } else m
  let m := if m.rsrp = "" ∧ (jsIncludes lower "rsrp" ∨
      (jsIncludes lower "signal" ∧ jsIncludes lower "strength")) then { m with rsrp := h } else m
  let m := if m.rsrq = "" ∧ (jsIncludes lower "rsrq" ∨ jsIncludes lower "quality") then
      { m with rsrq := h } else m
  let m := if m.sinr = "" ∧ (jsIncludes lower "sinr" ∨ jsIncludes lower "snr") then
      { m with sinr := h } else m
  let m := if m.technology = "" ∧ (jsIncludes lower "tech" ∨ jsIncludes lower "rat" ∨
      jsIncludes lower "generation" ∨ jsIncludes lower "technology") then
      { m with technology := h } else m
  let m := if m.location = "" ∧ (jsIncludes lower "location" ∨ jsIncludes lower "sector" ∨
      jsIncludes lower "cell" ∨ jsIncludes lower "site") then { m with location := h } else m
  let m := if m.throughput = "" ∧ (jsIncludes lower "throughput" ∨ jsIncludes lower "speed" ∨
      jsIncludes lower "rate" ∨ jsIncludes lower "kbps" ∨ jsIncludes lower "mbps") then
      { m with throughput := h } else m
  m

/-- The full auto-mapping proposal of `handleCsvUpload`: coordinate columns
via `detectCoordinateColumns`, the remaining fields by the substring-cue scan
over headers (first header wins per field). -/
def proposeMapping (headers : List String) : FieldMapping :=
  let (latCol, lngCol) := detectCoordinateColumns headers
  let m0 := { FieldMapping.empty with
    latitude := latCol.getD "", longitude := lngCol.getD "" }
  headers.foldl autoMapStep m0

/-! ## Record normalization (`processCsvData`) -/

/-- The canonical measurement record produced by `processCsvData`.
`timestampMs` is the instant of the stored ISO string; `date` is the local
civil date triple rendered by `toDateString`. -/
structure MeasurementRecord where
  timestampMs : ℤ
  date : ℤ × ℤ × ℤ
  hour : ℤ
  day : ℤ
  rsrp : JsNum
  rsrq : JsNum
  sinr : JsNum
  signalClass : ℕ
  technology : String
  location : JsVal
  throughput : JsNum
  lat : JsNum
  lon : JsNum
  originalRow : ℕ
deriving DecidableEq

/-- Default map center used by the coordinate fallback (Johannesburg). -/
def centerLat : ℚ := -26.2041

/-- Default map center used by the coordinate fallback (Johannesburg). -/
def centerLon : ℚ := 28.0473

/-- The deterministic fallback timestamp for row `index`:
`new Date('2025-08-01')`, `setHours(index % 24, 0, 0, 0)`,
`setDate(getDate() + ⌊index / 24⌋)`. -/
def fallbackTimestamp (tz : ℤ) (index : ℕ) : ℤ :=
  addDays ((index : ℤ) / 24) (setHoursTo tz ((index : ℤ) % 24) (20301 * msPerDay))

/-- Resolved timestamp for a row: the mapped cell parsed by `new Date` when
the mapping is set and the cell truthy and the parse is valid; otherwise the
deterministic fallback. -/
def resolveTimestamp (tz : ℤ) (mapping : FieldMapping) (index : ℕ) (row : Row) : ℤ :=
  if mapping.timestamp ≠ "" ∧ (rowGet row mapping.timestamp).truthy then
    match newDate tz (rowGet row mapping.timestamp) with
    | some ms => ms
    | none => fallbackTimestamp tz index
  else fallbackTimestamp tz index

/-- Resolved rsrp (`mapping.rsrp && row[...] !== undefined ?
parseFloat(row[...]) || -80 : -80`). -/
def resolveRsrp (mapping : FieldMapping) (row : Row) : JsNum :=
  if mapping.rsrp ≠ "" ∧ rowGet row mapping.rsrp ≠ .undefined then
    jsOrNum (parseFloat (rowGet row mapping.rsrp)) (-80)
  else .num (-80)

/-- Resolved rsrq (default `-10`). -/
def resolveRsrq (mapping : FieldMapping) (row : Row) : JsNum :=
  if mapping.rsrq ≠ "" ∧ rowGet row mapping.rsrq ≠ .undefined then
    jsOrNum (parseFloat (rowGet row mapping.rsrq)) (-10)
  else .num (-10)

/-- Resolved sinr (default `15`). -/
def resolveSinr (mapping : FieldMapping) (row : Row) : JsNum :=
  if mapping.sinr ≠ "" ∧ rowGet row mapping.sinr ≠ .undefined then
    jsOrNum (parseFloat (rowGet row mapping.sinr)) 15
  else .num 15

/-- Resolved throughput: the default is the pseudo-random
`Math.random() * 100 + 50`, with `r` the random value consumed by this row. -/
def resolveThroughput (r : ℚ) (mapping : FieldMapping) (row : Row) : JsNum :=
  if mapping.throughput ≠ "" ∧ rowGet row mapping.throughput ≠ .undefined then
    jsOrNum (parseFloat (rowGet row mapping.throughput)) (r * 100 + 50)
  else .num (r * 100 + 50)

/-- Decimal rendering of a rational (model of JS number-to-string): sign,
integer digits, and up to ten exact fractional digits. -/
def decimalString (q : ℚ) : String :=
  let sgn := if q < 0 then "-" else ""
  let aq := |q|
  let ip : ℕ := aq.floor.toNat
  let frac0 := aq - (ip : ℚ)
  let digits : ℕ → ℚ → List Char := fun n f =>
    Nat.rec (motive := fun _ => ℚ → List Char) (fun _ => [])
      (fun _ ih f =>
        if f = 0 then []
        else
          let f10 := f * 10
          let d : ℕ := f10.floor.toNat
          (Char.ofNat ('0'.toNat + d)) :: ih (f10 - (d : ℚ)))
      n f
  let fracDigits := digits 10 frac0
  sgn ++ toString ip ++ (if fracDigits.isEmpty then "" else "." ++ String.mk fracDigits)

/-- JS `String(n)` on a number. -/
def jsNumToString : JsNum → String
  | .nan => "NaN"
  | .posInf => "Infinity"
  | .negInf => "-Infinity"
  | .num q => decimalString q

/-- Template-literal / `toString()` rendering of a cell value. -/
def jsValToString : JsVal → String
  | .undefined => "undefined"
  | .vstr s => s
  | .vnum n => jsNumToString n

/-- Resolved technology: default "4G"; "5G" when the mapped cell's lowercase
string form contains "5g", "nr" or "new". -/
def resolveTechnology (mapping : FieldMapping) (row : Row) : String :=
  if mapping.technology ≠ "" ∧ (rowGet row mapping.technology).truthy then
    let techValue := toLowerString (jsValToString (rowGet row mapping.technology))
    if jsIncludes techValue "5g" ∨ jsIncludes techValue "nr" ∨ jsIncludes techValue "new" then
      "5G"
    else "4G"
  else "4G"

/-- Resolved location: the mapped cell when truthy, else the synthesized
`Sector_{⌊index/24⌋+1}` label. -/
def resolveLocation (mapping : FieldMapping) (index : ℕ) (row : Row) : JsVal :=
  if mapping.location ≠ "" ∧ (rowGet row mapping.location).truthy then
    rowGet row mapping.location
  else .vstr ("Sector_" ++ toString (index / 24 + 1))

/-- The mapped-and-validated coordinate pair of a row, when both columns are
mapped, both cells defined and `isValidCoordinate` passes (the `lat`/`lon`
variables of the source are non-null exactly when this is `some`). -/
def mappedCoordinates (mapping : FieldMapping) (row : Row) : Option (JsNum × JsNum) :=
  if mapping.latitude ≠ "" ∧ mapping.longitude ≠ "" ∧
      rowGet row mapping.latitude ≠ .undefined ∧ rowGet row mapping.longitude ≠ .undefined then
    if isValidCoordinate (.vnum (parseFloat (rowGet row mapping.latitude)))
        (.vnum (parseFloat (rowGet row mapping.longitude))) then
      some (parseFloat (rowGet row mapping.latitude), parseFloat (rowGet row mapping.longitude))
    else none
  else none

/-- The coordinate fallback for row `index`: the default center perturbed by
the deterministic per-row jitters and the random jitters `rLat`, `rLon`. -/
def fallbackCoordinates (rLat rLon : ℚ) (index : ℕ) : JsNum × JsNum :=
  (.num (centerLat + (rLat - 0.5) * 0.05 + ((index % 100 : ℕ) : ℚ) / 1000),
   .num (centerLon + (rLon - 0.5) * 0.07 + ((index * 7 % 100 : ℕ) : ℚ) / 1000))

/-- Resolved coordinates: the parsed mapped pair when valid, otherwise the
jittered fallback around the default center (`rLat`, `rLon` are the two
random values consumed by this row). -/
def resolveCoordinates (rLat rLon : ℚ) (mapping : FieldMapping) (index : ℕ) (row : Row) :
    JsNum × JsNum :=
  match mappedCoordinates mapping row with
  | some p => p
  | none => fallbackCoordinates rLat rLon index

/-- Normalization of one raw row at ordinal `index` (the body of the
`csvData.map` in `processCsvData`).  `rnd j` is the `Math.random()` value
consumed by call slot `j` of this row. -/
def processRow (tz : ℤ) (rnd : ℕ → ℚ) (mapping : FieldMapping) (index : ℕ)
    (row : Row) : MeasurementRecord :=
  let timestamp := resolveTimestamp tz mapping index row
  let rsrp := resolveRsrp mapping row
  let rsrq := resolveRsrq mapping row
  let sinr := resolveSinr mapping row
  let throughput := resolveThroughput (rnd 0) mapping row
  let latlon := resolveCoordinates (rnd 1) (rnd 2) mapping index row
  { timestampMs := timestamp
    date := toDateTriple tz timestamp
    hour := getHours tz timestamp
    day := getDate tz timestamp
    rsrp := jsRound1 rsrp
    rsrq := jsRound1 rsrq
    sinr := jsRound1 sinr
    signalClass := classifyJs rsrp
    technology := resolveTechnology mapping row
    location := resolveLocation mapping index row
    throughput := jsRound1 throughput
    lat := latlon.1
    lon := latlon.2
    originalRow := index }

/-- `list.map((x, i) => f i x)` starting at index `i0`. -/
def mapWithIndex {α β : Type} (f : ℕ → α → β) : ℕ → List α → List β
  | _, [] => []
  | i, x :: xs => f i x :: mapWithIndex f (i + 1) xs

/-- `processCsvData(csvData, mapping)`: normalize every row in order.
`rnd i j` is the `Math.random()` value consumed by row `i`, slot `j`. -/
def processCsvData (tz : ℤ) (rnd : ℕ → ℕ → ℚ) (csvData : List Row)
    (mapping : FieldMapping) : List MeasurementRecord :=
  mapWithIndex (fun index row => processRow tz (rnd index) mapping index row) 0 csvData

/-! ## Ingestion (`applyCsvData`) -/

/-- The dashboard state touched by ingestion. -/
structure DashState where
  data : List MeasurementRecord
  dataSource : String
  error : Option String
deriving DecidableEq

/-- The `complete` callback of `applyCsvData`: an empty parsed row list
throws `No data found in CSV file`, which the catch block surfaces via
`setError` and then clears the dataset with `setData([])`; otherwise the
normalized records replace the dataset wholesale. -/
def applyCsvComplete (tz : ℤ) (rnd : ℕ → ℕ → ℚ) (st : DashState)
    (rows : List Row) (mapping : FieldMapping) : DashState :=
  if rows.length = 0 then
    { st with error := some "Failed to process CSV: No data found in CSV file", data := [] }
  else
    let processed := processCsvData tz rnd rows mapping
    if processed.length = 0 then
      { st with
        error := some "Failed to process CSV: No valid data could be processed from CSV"
        data := [] }
    else
      { data := processed, dataSource := "csv", error := none }

/-! ## Aggregation helpers (`avg`, `groupBy`, `percentile`) -/

/-- `avg(arr, key)`: arithmetic mean over the finite values of the selected
field; `0` on empty input. -/
def avg (arr : List MeasurementRecord) (f : MeasurementRecord → JsNum) : ℚ :=
  let vals := arr.filterMap (fun r => (f r).toFinite?)
  if vals.length = 0 then 0 else vals.sum / (vals.length : ℚ)

/-- Stable insertion into a sorted list (ties keep the inserted element
first). -/
def insertLe {α : Type} (le : α → α → Bool) (x : α) : List α → List α
  | [] => [x]
  | y :: ys => if le x y then x :: y :: ys else y :: insertLe le x ys

/-- Stable sort (model of `Array.prototype.sort`, which is stable). -/
def sortStable {α : Type} (le : α → α → Bool) : List α → List α
  | [] => []
  | x :: xs => insertLe le x (sortStable le xs)

/-- The ascending comparator `(a, b) => a.rsrp - b.rsrp` as a Boolean "keep
order" relation; comparisons involving NaN keep the original order. -/
def jsRsrpLe (a b : JsNum) : Bool :=
  match a, b with
  | .nan, _ => true
  | _, .nan => true
  | .posInf, .posInf => true
  | .posInf, _ => false
  | .negInf, _ => true
  | .num _, .posInf => true
  | .num _, .negInf => false
  | .num x, .num y => x ≤ y

/-- `percentile(arr, key, p)`: sort the finite values ascending, take index
`round(p/100 × (n-1))` clamped to `[0, n-1]`; `0` on empty input. -/
def percentile (arr : List MeasurementRecord) (f : MeasurementRecord → JsNum) (p : ℤ) : ℚ :=
  let vals := sortStable (fun a b => a ≤ b) (arr.filterMap (fun r => (f r).toFinite?))
  if vals.length = 0 then 0
  else
    let idx : ℤ := min ((vals.length : ℤ) - 1)
      (max 0 (round ((p : ℚ) / 100 * ((vals.length : ℤ) - 1 : ℤ))))
    vals.getD idx.toNat 0

/-- The grouping key of `groupBy(arr, 'location')`: `r.location ?? 'Unknown'`
coerced to an object property key. -/
def groupKeyOf (r : MeasurementRecord) : String :=
  match r.location with
  | .undefined => "Unknown"
  | v => jsValToString v

/-- The distinct grouping keys in first-occurrence order. -/
def groupKeys (arr : List MeasurementRecord) : List String :=
  arr.foldl (fun ks r => let k := groupKeyOf r; if ks.contains k then ks else ks ++ [k]) []

/-- `groupBy(arr, 'location')` as an insertion-ordered association list. -/
def groupBy (arr : List MeasurementRecord) : List (String × List MeasurementRecord) :=
  (groupKeys arr).map (fun k => (k, arr.filter (fun r => groupKeyOf r = k)))

/-! ## Output formatting -/

/-- `Number.toFixed(1)` rendering (always one decimal digit). -/
def fmt1 (q : ℚ) : String :=
  let n : ℤ := round (10 * q)
  (if n < 0 then "-" else "") ++ toString (n.natAbs / 10) ++ "." ++ toString (n.natAbs % 10)

/-- `fmtPct`. -/
def fmtPct (q : ℚ) : String := fmt1 q ++ "%"

/-- `fmtKbps` (`Math.round(n).toLocaleString() + ' kbps'`; grouped-digit
locale formatting is modelled as plain digits). -/
def fmtKbps (q : ℚ) : String := toString (round q : ℤ) ++ " kbps"

/-- `new Date(ms).toLocaleString()` modelled as a deterministic rendering of
the instant. -/
def localeDateString (ms : ℤ) : String := toString ms

/-! ## Question matching (the regular expressions of `askLocalAI`) -/

/-- A regex word character (`\w` = `[A-Za-z0-9_]`). -/
def isWordChar (c : Char) : Bool := c.isAlphanum || c = '_'

/-- The candidate parses of `\d{1,2}` at the head of the input, greedy
first (two digits, then one), each with the remaining input. -/
def digitCands12 : List Char → List (ℕ × List Char)
  | c1 :: c2 :: t =>
    if c1.isDigit then
      if c2.isDigit then [(digitsVal [c1, c2], t), (digitsVal [c1], c2 :: t)]
      else [(digitsVal [c1], c2 :: t)]
    else []
  | [c1] => if c1.isDigit then [(digitsVal [c1], [])] else []
  | [] => []

/-- Backtracking: try a continuation on each candidate in order. -/
def tryCands {α : Type} (cands : List (ℕ × List Char))
    (k : ℕ → List Char → Option α) : Option α :=
  match cands with
  | [] => none
  | (n, rest) :: t =>
    match k n rest with
    | some r => some r
    | none => tryCands t k

/-- Try a parser at every start position, leftmost match first. -/
def scanList {α : Type} (f : List Char → Option α) : List Char → Option α
  | [] => f []
  | c :: t =>
    match f (c :: t) with
    | some r => some r
    | none => scanList f t

/-- Try a parser at every start position preceded by a word boundary
(`\b` before a word character). -/
def scanListB {α : Type} (f : List Char → Option α) : Option Char → List Char → Option α
  | _, [] => none
  | prev, c :: t =>
    let boundary := match prev with | none => true | some p => !(isWordChar p)
    match (if boundary then f (c :: t) else none) with
    | some r => some r
    | none => scanListB f (some c) t

/-- `\b` after one of the digit candidates: accept only when the next
character is not a word character. -/
def digitThenBoundary (cs : List Char) : Option ℕ :=
  tryCands (digitCands12 cs) (fun n rest =>
    match rest with
    | [] => some n
    | c :: _ => if isWordChar c then none else some n)

/-- `/between\s+(\d{1,2})\s*(?:and|-|to)\s*(\d{1,2})/` tried at one
position. -/
def tryBetweenAt (cs : List Char) : Option (ℕ × ℕ) :=
  if ("between".toList).isPrefixOf cs then
    match cs.drop 7 with
    | c :: t =>
      if isJsSpace c then
        tryCands (digitCands12 (t.dropWhile isJsSpace)) (fun a rest =>
          let rest1 := rest.dropWhile isJsSpace
          let sep :=
            if ("and".toList).isPrefixOf rest1 then some (rest1.drop 3)
            else if ("-".toList).isPrefixOf rest1 then some (rest1.drop 1)
            else if ("to".toList).isPrefixOf rest1 then some (rest1.drop 2)
            else none
          match sep with
          | none => none
          | some rest2 =>
            tryCands (digitCands12 (rest2.dropWhile isJsSpace)) (fun b _ => some (a, b)))
      else none
    | [] => none
  else none

/-- The hour-range pattern, scanned over the question. -/
def matchBetween (cs : List Char) : Option (ℕ × ℕ) :=
  scanList tryBetweenAt cs

/-- `/\b(?:hour|at)\s*(\d{1,2})\b/` tried at one boundary position. -/
def tryAtHourAt (cs : List Char) : Option ℕ :=
  let after :=
    if ("hour".toList).isPrefixOf cs then some (cs.drop 4)
    else if ("at".toList).isPrefixOf cs then some (cs.drop 2)
    else none
  match after with
  | none => none
  | some rest => digitThenBoundary (rest.dropWhile isJsSpace)

/-- The single-hour pattern, scanned over the question. -/
def matchAtHour (cs : List Char) : Option ℕ :=
  scanListB tryAtHourAt none cs

/-- `/\baug(?:ust)?\s*(\d{1,2})\b/` tried at one boundary position (the
optional `ust` is consumed greedily, with backtracking). -/
def tryAugAt (cs : List Char) : Option ℕ :=
  if ("aug".toList).isPrefixOf cs then
    let rest := cs.drop 3
    match (if ("ust".toList).isPrefixOf rest then
        digitThenBoundary ((rest.drop 3).dropWhile isJsSpace) else none) with
    | some n => some n
    | none => digitThenBoundary (rest.dropWhile isJsSpace)
  else none

/-- The day-of-August pattern, scanned over the question. -/
def matchAug (cs : List Char) : Option ℕ :=
  scanListB tryAugAt none cs

/-- `/(top|bottom)\s*\d+\s*sectors?.*throughput/` tried at one position:
after `sectors?`, the `.*` cannot cross a line terminator. -/
def tryTopTestAt (kw : List Char) (cs : List Char) : Option Unit :=
  if kw.isPrefixOf cs then
    let r := (cs.drop kw.length).dropWhile isJsSpace
    let (ds, r2) := splitDigits r
    if ds.isEmpty then none
    else
      let r3 := r2.dropWhile isJsSpace
      if ("sector".toList).isPrefixOf r3 then
        if isInfixChars ("throughput".toList)
            ((r3.drop 6).takeWhile (fun c => c ≠ '\n' ∧ c ≠ '\r')) then
          some ()
        else none
      else none
  else none

/-- Whether the top-N / bottom-N intent regex matches the question. -/
def matchTopTest (kw : String) (cs : List Char) : Bool :=
  (scanList (tryTopTestAt kw.toList) cs).isSome

/-- `/(top|bottom)\s*(\d+)/` capture (first occurrence, all digits). -/
def tryTopNAt (kw : List Char) (cs : List Char) : Option ℕ :=
  if kw.isPrefixOf cs then
    let r := (cs.drop kw.length).dropWhile isJsSpace
    let (ds, _) := splitDigits r
    if ds.isEmpty then none else some (digitsVal ds)
  else none

/-- The N capture of the top-N / bottom-N intent. -/
def matchTopN (kw : String) (cs : List Char) : Option ℕ :=
  scanList (tryTopNAt kw.toList) cs

/-- `/(\d{1,2})\s*th\s*percentile/` tried at one position. -/
def tryNthAt (cs : List Char) : Option ℕ :=
  tryCands (digitCands12 cs) (fun n rest =>
    let r1 := rest.dropWhile isJsSpace
    if ("th".toList).isPrefixOf r1 then
      if ("percentile".toList).isPrefixOf ((r1.drop 2).dropWhile isJsSpace) then some n
      else none
    else none)

/-- The Nth-percentile capture, scanned over the question; `none` models the
`(q.match(...) || ['95'])[1]` fallback, whose element 1 is `undefined`. -/
def matchNth (cs : List Char) : Option ℕ :=
  scanList tryNthAt cs

/-- `startsWith` via character lists. -/
def jsStartsWith (s pre : String) : Bool :=
  (pre.toList).isPrefixOf s.toList

/-! ## The query engine (`askLocalAI`) -/

/-- The fixed empty-subset answer. -/
def noMatchingRowsMsg : String :=
  "No matching rows for those filters. Try a broader question."

/-- `summarizeColumns(data[0])`: the column names of the first record (the
key list of the record object, in insertion order), or a fixed message when
there is no record. -/
def summarizeColumns : Option MeasurementRecord → String
  | none => "No columns detected."
  | some _ =>
    "timestamp, date, hour, day, rsrp, rsrq, sinr, signalClass, technology, location, throughput, lat, lon, originalRow"

/-- The filter pipeline of `askLocalAI` (technology cue, hour range or single
hour, day of August), applied to the already-lowercased question `q`. -/
def applyFilters (data : List MeasurementRecord) (selectedTech : String) (q : String) :
    List MeasurementRecord :=
  let subset :=
    if jsIncludes q " 5g" ∨ jsStartsWith q "5g" ∨ jsIncludes q " nr" then
      data.filter (fun r => r.technology = "5G")
    else if jsIncludes q " 4g" ∨ jsStartsWith q "4g" ∨ jsIncludes q " lte" then
      data.filter (fun r => r.technology = "4G")
    else if selectedTech ≠ "All" then data.filter (fun r => r.technology = selectedTech)
    else data
  let subset :=
    match matchBetween q.toList with
    | some (a, b) =>
      let h1 := clampInt (a : ℤ) 0 23
      let h2 := clampInt (b : ℤ) 0 23
      let lo := min h1 h2
      let hi := max h1 h2
      subset.filter (fun r => lo ≤ r.hour ∧ r.hour ≤ hi)
    | none =>
      match matchAtHour q.toList with
      | some n => subset.filter (fun r => r.hour = clampInt (n : ℤ) 0 23)
      | none => subset
  match matchAug q.toList with
  | some n => subset.filter (fun r => r.day = clampInt (n : ℤ) 1 31)
  | none => subset

/-- The ranked-list body of the top/bottom-sectors answers. -/
def rankedLines (rows : List (String × ℚ)) : String :=
  String.intercalate "\n"
    (mapWithIndex (fun i r => toString (i + 1) ++ ". " ++ r.1 ++ ": " ++ fmt1 r.2 ++ " Mbps") 0 rows)

/-- The intent-dispatch chain of `askLocalAI`, evaluated on the filtered
`subset` (the schema intent reads from the unfiltered `data`).  The result is
`none` exactly when the JS code would throw (the only reachable hazard:
reading `.rsrp` of `sort(...)[0]` on an empty array in the worst-RSRP
intent). -/
def dispatch (data subset : List MeasurementRecord) (q : String) : Option String :=
  if jsIncludes q "columns" ∨ jsIncludes q "schema" ∨ jsIncludes q "headers" then
    some ("Detected columns: " ++ summarizeColumns data.head?)
  else if jsIncludes q "count" ∨ jsIncludes q "how many" ∨ jsIncludes q "rows" ∨
      jsIncludes q "measurements" then
    some ("There are " ++ toString subset.length ++ " measurements in this selection.")
  else if jsIncludes q "average throughput" ∨ jsIncludes q "avg throughput" ∨
      jsIncludes q "throughput mean" then
    let mbps := avg subset (fun r => r.throughput)
    some ("Average throughput: " ++ fmtKbps (mbps * 1000) ++ " (≈ " ++ fmt1 mbps ++
      " Mbps) based on " ++ toString subset.length ++ " measurements.")
  else if jsIncludes q "average rsrp" ∨ jsIncludes q "avg rsrp" then
    some ("Average RSRP: " ++ fmt1 (avg subset (fun r => r.rsrp)) ++ " dBm.")
  else if jsIncludes q "average rsrq" ∨ jsIncludes q "avg rsrq" then
    some ("Average RSRQ: " ++ fmt1 (avg subset (fun r => r.rsrq)) ++ " dB.")
  else if jsIncludes q "average sinr" ∨ jsIncludes q "avg sinr" then
    some ("Average SINR: " ++ fmt1 (avg subset (fun r => r.sinr)) ++ " dB.")
  else if jsIncludes q "class 1" ∧ (jsIncludes q "percent" ∨ jsIncludes q "coverage" ∨
      jsIncludes q "share") then
    let c1 := (subset.filter (fun r => r.signalClass = 1)).length
    some ("Class 1 coverage: " ++ fmtPct ((c1 : ℚ) / (subset.length : ℚ) * 100) ++ " (" ++
      toString c1 ++ " of " ++ toString subset.length ++ ").")
  else if matchTopTest "top" q.toList then
    let k := clampInt (jsOrZero (matchTopN "top" q.toList)) 1 50
    let entries := (groupBy subset).map (fun g => (g.1, avg g.2 (fun r => r.throughput)))
    let rows := (sortStable (fun a b => b.2 ≤ a.2) entries).take k.toNat
    some ("Top " ++ toString rows.length ++ " sectors by avg throughput:\n" ++ rankedLines rows)
  else if matchTopTest "bottom" q.toList then
    let k := clampInt (jsOrZero (matchTopN "bottom" q.toList)) 1 50
    let entries := (groupBy subset).map (fun g => (g.1, avg g.2 (fun r => r.throughput)))
    let rows := (sortStable (fun a b => a.2 ≤ b.2) entries).take k.toNat
    some ("Bottom " ++ toString rows.length ++ " sectors by avg throughput:\n" ++ rankedLines rows)
  else if jsIncludes q "percentile" ∧ jsIncludes q "throughput" then
    let p := clampInt (jsOrZero (matchNth q.toList)) 1 99
    let val := percentile subset (fun r => r.throughput) p
    some (toString p ++ "th percentile throughput ≈ " ++ fmt1 val ++ " Mbps (" ++
      fmtKbps (val * 1000) ++ ").")
  else if jsIncludes q "worst rsrp" ∨ jsIncludes q "lowest rsrp" then
    match (sortStable (fun a b => jsRsrpLe a.rsrp b.rsrp) subset).head? with
    | none => none
    | some worst =>
      some ("Worst RSRP: " ++ jsNumToString worst.rsrp ++ " dBm at " ++
        jsValToString worst.location ++ " around " ++ localeDateString worst.timestampMs ++ ".")
  else
    let mbps := avg subset (fun r => r.throughput)
    let c1 := (subset.filter (fun r => r.signalClass = 1)).length
    some (String.intercalate "\n"
      ["Here’s a quick summary:",
       "• Rows: " ++ toString subset.length,
       "• Avg Throughput: " ++ fmt1 mbps ++ " Mbps (" ++ fmtKbps (mbps * 1000) ++ ")",
       "• Avg RSRP: " ++ fmt1 (avg subset (fun r => r.rsrp)) ++ " dBm",
       "• Avg RSRQ: " ++ fmt1 (avg subset (fun r => r.rsrq)) ++ " dB",
       "• Avg SINR: " ++ fmt1 (avg subset (fun r => r.sinr)) ++ " dB",
       "• Class 1: " ++ fmtPct ((c1 : ℚ) / (subset.length : ℚ) * 100)])

/-- `askLocalAI(question)` over dataset `data` with external technology
selector `selectedTech`: lowercase the question, apply the filters, answer
with the fixed message when the filtered subset is empty, otherwise
dispatch on the first matching intent. -/
def askLocalAI (data : List MeasurementRecord) (selectedTech : String)
    (question : String) : Option String :=
  if (applyFilters data selectedTech (toLowerString question)).length = 0 then
    some noMatchingRowsMsg
  else
    dispatch data (applyFilters data selectedTech (toLowerString question))
      (toLowerString question)

/-- The percentile parameter exactly as computed in the percentile intent:
`clampInt((q.match(/(\d{1,2})\s*th\s*percentile/) || ['95'])[1], 1, 99)`.
When the regex does not match, element 1 of the fallback array `['95']` is
`undefined`, and `undefined | 0 === 0`. -/
def percentileParam (q : String) : ℤ :=
  clampInt (jsOrZero (matchNth q.toList)) 1 99

/-! ## Concrete fixtures used by the counterexamples and witnesses -/

/-- A degenerate `Math.random()` stream. -/
def zeroRand : ℕ → ℚ := fun _ => 0

/-- A degenerate two-index `Math.random()` oracle. -/
def zeroRand2 : ℕ → ℕ → ℚ := fun _ _ => 0

/-- A mapping that binds only the rsrp column `R`. -/
def rsrpOnlyMapping : FieldMapping := { FieldMapping.empty with rsrp := "R" }

/-- A row whose rsrp cell is `-70.04` (just below the class-1 boundary, but
rounding to one decimal crosses it). -/
def roundingRow : Row := [("R", .vnum (.num (-70.04)))]

/-- A row whose rsrp cell is the valid float `0`. -/
def zeroRsrpRow : Row := [("R", .vnum (.num 0))]

/-- The auto-proposed mapping for the Scenario A headers. -/
def scenarioMapping : FieldMapping := proposeMapping ["Lat", "Lon", "RSRP", "Date"]

/-- The auto-mapping proposal for the Scenario A headers, evaluated:
coordinates from `Lat`/`Lon`, rsrp from `RSRP`, timestamp from `Date`. -/
theorem scenarioMapping_eval :
    scenarioMapping = { FieldMapping.empty with
      timestamp := "Date", rsrp := "RSRP", latitude := "Lat", longitude := "Lon" } := by
  with_unfolding_all decide

/-- The Scenario A row `[-26.1, 28.0, -65, "2025-08-01T05:00:00Z"]`. -/
def scenarioRow : Row :=
  [("Lat", .vnum (.num (-26.1))), ("Lon", .vnum (.num 28)),
   ("RSRP", .vnum (.num (-65))), ("Date", .vstr "2025-08-01T05:00:00Z")]

/-- A fully concrete canonical record (class 2, throughput 80 Mbps). -/
def sampleRecord : MeasurementRecord :=
  { timestampMs := 0, date := (1970, 1, 1), hour := 0, day := 1,
    rsrp := .num (-80), rsrq := .num (-10), sinr := .num 15, signalClass := 2,
    technology := "4G", location := .vstr "A", throughput := .num 80,
    lat := .num (-26.1), lon := .num 28, originalRow := 0 }

/-- A dashboard state holding one previously loaded record. -/
def loadedState : DashState :=
  { data := [sampleRecord], dataSource := "csv", error := none }

/-- All fields of a record are populated: the four signal fields are not
NaN, the coordinates are finite numbers, and the location is neither
`undefined` nor NaN. -/
def populatedRecord (r : MeasurementRecord) : Bool :=
  !r.rsrp.isNan && !r.rsrq.isNan && !r.sinr.isNan && !r.throughput.isNan &&
  r.lat.isFinite && r.lon.isFinite &&
  (r.location ≠ JsVal.undefined) && (r.location ≠ JsVal.vnum .nan)

end DriveTest

namespace DriveTest

/-! ## Claim C7: the classifier is total, monotone, with the stated boundary
values -/

/-- **C7.** `classify` is total over finite rsrp values (the class is always
in {1,2,3,4}), antitone (a higher rsrp never yields a numerically larger
class), and takes the documented boundary values. -/
theorem classify_total_monotone_boundaries :
    (∀ r : ℚ, 1 ≤ classify r ∧ classify r ≤ 4) ∧
    (∀ a b : ℚ, a ≤ b → classify b ≤ classify a) ∧
    classify (-70) = 1 ∧ classify (-70.1) = 2 ∧ classify (-85) = 2 ∧
    classify (-100) = 3 ∧ classify (-100.1) = 4 := by
  refine ⟨?_, ?_, ?_, ?_, ?_, ?_, ?_⟩
  · intro r
    unfold classify
    split_ifs <;> omega
  · intro a b hab
    unfold classify
    split_ifs with h1 h2 h3 h4 h5 h6 h7 h8 <;> first
      | omega
      | (exfalso; linarith)
  · with_unfolding_all decide
  · with_unfolding_all decide
  · with_unfolding_all decide
  · with_unfolding_all decide
  · with_unfolding_all decide

/-- Witness for C7: the monotonicity part applied at `-90 ≤ -80`. -/
theorem classify_total_monotone_boundaries_witness :
    classify (-80) ≤ classify (-90) :=
  classify_total_monotone_boundaries.2.1 (-90) (-80) (by norm_num)

/-! ## Claim C3: signal class versus the stored (rounded) rsrp -/

/-- **C3, counterexample.** For the row with rsrp cell `-70.04`, the stored
`signalClass` is `2` (computed on the pre-rounding value) while the
classification rule applied to the stored, one-decimal-rounded rsrp (`-70.0`)
gives `1`: the claimed invariant fails. -/
theorem signalClass_vs_storedRsrp_counterexample :
    (processRow 0 zeroRand rsrpOnlyMapping 0 roundingRow).signalClass = 2 ∧
    classifyJs (processRow 0 zeroRand rsrpOnlyMapping 0 roundingRow).rsrp = 1 ∧
    (processRow 0 zeroRand rsrpOnlyMapping 0 roundingRow).signalClass ≠
      classifyJs (processRow 0 zeroRand rsrpOnlyMapping 0 roundingRow).rsrp := by
  refine ⟨?_, ?_, ?_⟩ <;> with_unfolding_all decide

/-- **C3, amended.** The stored `signalClass` is the classification rule
applied to the resolved, pre-rounding rsrp value; the stored rsrp is that
value rounded to one decimal.  (The two agree except when rounding crosses a
class boundary.) -/
theorem signalClass_matches_unrounded_rsrp :
    ∀ (tz : ℤ) (rnd : ℕ → ℚ) (mapping : FieldMapping) (index : ℕ) (row : Row),
      (processRow tz rnd mapping index row).signalClass
        = classifyJs (resolveRsrp mapping row) ∧
      (processRow tz rnd mapping index row).rsrp
        = jsRound1 (resolveRsrp mapping row) := by
  intro tz rnd mapping index row
  exact ⟨rfl, rfl⟩

/-! ## Claim C4: the coordinate validator -/

/-- **C4, counterexample.** The pair `(0, 28)` satisfies the spec predicate
(finite, in range, not the `(0,0)` sentinel) but `isValidCoordinate` rejects
it: the code requires each coordinate individually to be nonzero. -/
theorem isValidCoordinate_zero_lat_counterexample :
    specValidCoordinate (.vnum (.num 0)) (.vnum (.num 28)) = true ∧
    isValidCoordinate (.vnum (.num 0)) (.vnum (.num 28)) = false := by
  constructor <;> with_unfolding_all decide

/-- **C4, amended.** `isValid(lat, lon)` holds iff both values parse as
finite numbers, `lat ∈ [-90,90]`, `lon ∈ [-180,180]`, and **each coordinate
individually** is nonzero (so `(0, lon)` and `(lat, 0)` are rejected, not
just the `(0,0)` sentinel). -/
theorem isValidCoordinate_characterization :
    ∀ lat lng : JsVal,
      isValidCoordinate lat lng = true ↔
        ∃ la lo : ℚ, parseFloat lat = .num la ∧ parseFloat lng = .num lo ∧
          -90 ≤ la ∧ la ≤ 90 ∧ -180 ≤ lo ∧ lo ≤ 180 ∧ la ≠ 0 ∧ lo ≠ 0 := by
  intro lat lng
  unfold isValidCoordinate
  rcases h1 : parseFloat lat with _ | _ | _ | la <;>
    rcases h2 : parseFloat lng with _ | _ | _ | lo <;>
      simp [JsNum.isNan, JsNum.geQ, JsNum.leQ, JsNum.strictNeQ, and_assoc]

/-! ## Claim C5: default substitution for the signal fields -/

/-- **C5, counterexample.** A mapped rsrp cell holding the valid float `0` is
not kept: `parseFloat(...) || -80` sees the falsy `0` and substitutes the
default `-80`. -/
theorem zero_rsrp_defaulted_counterexample :
    (processRow 0 zeroRand rsrpOnlyMapping 0 zeroRsrpRow).rsrp = JsNum.num (-80) ∧
    (processRow 0 zeroRand rsrpOnlyMapping 0 zeroRsrpRow).rsrp ≠ JsNum.num 0 := by
  constructor <;> with_unfolding_all decide

/-- The two halves of the `parseFloat(cell) || default` pattern: a cell that
parses to a finite float is kept exactly when that float is nonzero (`0` is
falsy and yields the default), and a cell that parses to NaN yields the
default. -/
theorem defaultSubstitution_cases (x : JsNum) (d : ℚ) :
    (∀ q : ℚ, x = JsNum.num q → jsOrNum x d = (if q = 0 then .num d else .num q)) ∧
    (x = .nan → jsOrNum x d = .num d) := by
  constructor
  · intro q hq
    subst hq
    unfold jsOrNum JsNum.truthy
    by_cases h : q = 0
    · subst h
      simp
    · simp [h]
  · intro hq
    subst hq
    rfl

/-- **C5, amended.** For each of the four signal fields (`rsrp = -80`,
`rsrq = -10`, `sinr = 15`, and `throughput =` the pseudo-random
`r*100 + 50`): a mapped cell that parses as a *nonzero* finite float is kept;
a cell parsing to `0` or to NaN is replaced by the field default, exactly
like an unmapped field (a missing cell reaches the NaN case through
`parseFloat(undefined) = NaN`). -/
theorem signal_field_default_substitution :
    (∀ (m : FieldMapping) (row : Row) (q : ℚ), m.rsrp ≠ "" →
      parseFloat (rowGet row m.rsrp) = .num q →
      resolveRsrp m row = (if q = 0 then .num (-80) else .num q)) ∧
    (∀ (m : FieldMapping) (row : Row), parseFloat (rowGet row m.rsrp) = .nan →
      resolveRsrp m row = .num (-80)) ∧
    (∀ (m : FieldMapping) (row : Row), m.rsrp = "" → resolveRsrp m row = .num (-80)) ∧
    (∀ (m : FieldMapping) (row : Row) (q : ℚ), m.rsrq ≠ "" →
      parseFloat (rowGet row m.rsrq) = .num q →
      resolveRsrq m row = (if q = 0 then .num (-10) else .num q)) ∧
    (∀ (m : FieldMapping) (row : Row), parseFloat (rowGet row m.rsrq) = .nan →
      resolveRsrq m row = .num (-10)) ∧
    (∀ (m : FieldMapping) (row : Row), m.rsrq = "" → resolveRsrq m row = .num (-10)) ∧
    (∀ (m : FieldMapping) (row : Row) (q : ℚ), m.sinr ≠ "" →
      parseFloat (rowGet row m.sinr) = .num q →
      resolveSinr m row = (if q = 0 then .num 15 else .num q)) ∧
    (∀ (m : FieldMapping) (row : Row), parseFloat (rowGet row m.sinr) = .nan →
      resolveSinr m row = .num 15) ∧
    (∀ (m : FieldMapping) (row : Row), m.sinr = "" → resolveSinr m row = .num 15) ∧
    (∀ (m : FieldMapping) (row : Row) (r q : ℚ), m.throughput ≠ "" →
      parseFloat (rowGet row m.throughput) = .num q →
      resolveThroughput r m row = (if q = 0 then .num (r * 100 + 50) else .num q)) ∧
    (∀ (m : FieldMapping) (row : Row) (r : ℚ), parseFloat (rowGet row m.throughput) = .nan →
      resolveThroughput r m row = .num (r * 100 + 50)) ∧
    (∀ (m : FieldMapping) (row : Row) (r : ℚ), m.throughput = "" →
      resolveThroughput r m row = .num (r * 100 + 50)) := by
  refine ⟨?_, ?_, ?_, ?_, ?_, ?_, ?_, ?_, ?_, ?_, ?_, ?_⟩
  · intro m row q hm hp
    have hcell : rowGet row m.rsrp ≠ .undefined := by
      intro h
      rw [h] at hp
      exact JsNum.noConfusion hp
    unfold resolveRsrp
    rw [if_pos ⟨hm, hcell⟩]
    exact (defaultSubstitution_cases _ _).1 q hp
  · intro m row hp
    unfold resolveRsrp
    split_ifs with h
    · exact (defaultSubstitution_cases _ _).2 hp
    · rfl
  · intro m row hm
    unfold resolveRsrp
    rw [if_neg (fun hc => hc.1 hm)]
  · intro m row q hm hp
    have hcell : rowGet row m.rsrq ≠ .undefined := by
      intro h
      rw [h] at hp
      exact JsNum.noConfusion hp
    unfold resolveRsrq
    rw [if_pos ⟨hm, hcell⟩]
    exact (defaultSubstitution_cases _ _).1 q hp
  · intro m row hp
    unfold resolveRsrq
    split_ifs with h
    · exact (defaultSubstitution_cases _ _).2 hp
    · rfl
  · intro m row hm
    unfold resolveRsrq
    rw [if_neg (fun hc => hc.1 hm)]
  · intro m row q hm hp
    have hcell : rowGet row m.sinr ≠ .undefined := by
      intro h
      rw [h] at hp
      exact JsNum.noConfusion hp
    unfold resolveSinr
    rw [if_pos ⟨hm, hcell⟩]
    exact (defaultSubstitution_cases _ _).1 q hp
  · intro m row hp
    unfold resolveSinr
    split_ifs with h
    · exact (defaultSubstitution_cases _ _).2 hp
    · rfl
  · intro m row hm
    unfold resolveSinr
    rw [if_neg (fun hc => hc.1 hm)]
  · intro m row r q hm hp
    have hcell : rowGet row m.throughput ≠ .undefined := by
      intro h
      rw [h] at hp
      exact JsNum.noConfusion hp
    unfold resolveThroughput
    rw [if_pos ⟨hm, hcell⟩]
    exact (defaultSubstitution_cases _ _).1 q hp
  · intro m row r hp
    unfold resolveThroughput
    split_ifs with h
    · exact (defaultSubstitution_cases _ _).2 hp
    · rfl
  · intro m row r hm
    unfold resolveThroughput
    rw [if_neg (fun hc => hc.1 hm)]

/-- Witness for C5 (amended): at the concrete zero-valued rsrp cell the
first clause yields the default `-80`. -/
theorem signal_field_default_substitution_witness :
    resolveRsrp rsrpOnlyMapping zeroRsrpRow = .num (-80) := by
  have h := signal_field_default_substitution.1 rsrpOnlyMapping zeroRsrpRow 0
    (by decide) (by with_unfolding_all decide)
  simpa using h

/-! ## Claim C2: ingestion failure on an empty row source -/

/-- **C2, counterexample.** Ingesting an empty row list over a state holding
one record surfaces an error, but the dataset does *not* remain unchanged:
the catch block runs `setData([])`, clearing it. -/
theorem ingestion_empty_counterexample :
    (applyCsvComplete 0 zeroRand2 loadedState [] FieldMapping.empty).error.isSome = true ∧
    (applyCsvComplete 0 zeroRand2 loadedState [] FieldMapping.empty).data
      ≠ loadedState.data := by
  constructor <;> with_unfolding_all decide

/-- **C2, amended.** When the raw row source is empty, the error is surfaced
to the caller (`error` is set to the ingestion failure message), and the
dataset is *cleared to the empty dataset* — it does not keep its previous
contents; `dataSource` is left unchanged. -/
theorem ingestion_empty_surfaces_error_and_clears :
    ∀ (tz : ℤ) (rnd : ℕ → ℕ → ℚ) (st : DashState) (mapping : FieldMapping),
      applyCsvComplete tz rnd st [] mapping
        = { st with
              error := some "Failed to process CSV: No data found in CSV file"
              data := [] } := by
  intro tz rnd st mapping
  rfl

/-! ## Claim C6: the derived hour field and Scenario A -/

/-- **C6, counterexample.** Under a runtime timezone offset of +120 minutes
(e.g. SAST), the Scenario A record's `hour` is `7` — the *local* hour of the
parsed timestamp — while the UTC hour of that same stored instant is `5`:
`hour` does not equal the UTC hour in general, because the code derives it
with `getHours()`. -/
theorem hour_utc_counterexample :
    (processRow 120 zeroRand scenarioMapping 0 scenarioRow).hour = 7 ∧
    getHours 0 (processRow 120 zeroRand scenarioMapping 0 scenarioRow).timestampMs = 5 ∧
    (processRow 120 zeroRand scenarioMapping 0 scenarioRow).hour
      ≠ getHours 0 (processRow 120 zeroRand scenarioMapping 0 scenarioRow).timestampMs := by
  refine ⟨?_, ?_, ?_⟩ <;> with_unfolding_all decide

/-- **C6, amended.** For every record with a parseable mapped timestamp, the
derived `hour` equals the hour of that timestamp in the *runtime's local
timezone* (which is the UTC hour exactly when the runtime offset is zero);
in particular, in a UTC runtime the Scenario A row yields `signalClass = 1`,
`lat = -26.1`, `lon = 28.0`, `hour = 5`. -/
theorem hour_is_local_timezone_hour :
    (∀ (tz : ℤ) (rnd : ℕ → ℚ) (mapping : FieldMapping) (index : ℕ) (row : Row) (ms : ℤ),
      mapping.timestamp ≠ "" → (rowGet row mapping.timestamp).truthy = true →
      newDate tz (rowGet row mapping.timestamp) = some ms →
      (processRow tz rnd mapping index row).hour = getHours tz ms) ∧
    (∀ rnd : ℕ → ℚ,
      (processRow 0 rnd scenarioMapping 0 scenarioRow).signalClass = 1 ∧
      (processRow 0 rnd scenarioMapping 0 scenarioRow).lat = .num (-26.1) ∧
      (processRow 0 rnd scenarioMapping 0 scenarioRow).lon = .num 28 ∧
      (processRow 0 rnd scenarioMapping 0 scenarioRow).hour = 5) := by
  constructor
  · intro tz rnd mapping index row ms hm ht hd
    show getHours tz (resolveTimestamp tz mapping index row) = getHours tz ms
    unfold resolveTimestamp
    rw [if_pos ⟨hm, ht⟩, hd]
  · intro rnd
    have hmc : mappedCoordinates scenarioMapping scenarioRow
        = some (.num (-26.1), .num 28) := by
      rw [scenarioMapping_eval]
      with_unfolding_all decide
    refine ⟨?_, ?_, ?_, ?_⟩
    · show classifyJs (resolveRsrp scenarioMapping scenarioRow) = 1
      rw [scenarioMapping_eval]
      with_unfolding_all decide
    · show (resolveCoordinates (rnd 1) (rnd 2) scenarioMapping 0 scenarioRow).1 = .num (-26.1)
      unfold resolveCoordinates
      rw [hmc]
    · show (resolveCoordinates (rnd 1) (rnd 2) scenarioMapping 0 scenarioRow).2 = .num 28
      unfold resolveCoordinates
      rw [hmc]
    · show getHours 0 (resolveTimestamp 0 scenarioMapping 0 scenarioRow) = 5
      rw [scenarioMapping_eval]
      with_unfolding_all decide

/-- Witness for C6 (amended): the first clause applied to the Scenario A row
in a UTC runtime, with the parse discharged concretely. -/
theorem hour_is_local_timezone_hour_witness :
    (processRow 0 zeroRand scenarioMapping 0 scenarioRow).hour = getHours 0 1754024400000 := by
  refine hour_is_local_timezone_hour.1 0 zeroRand scenarioMapping 0 scenarioRow
    1754024400000 ?_ ?_ ?_ <;> rw [scenarioMapping_eval] <;> decide

/-! ## Helper lemmas about the normalizer's field resolvers -/

/-- `x || d` is never NaN. -/
theorem jsOrNum_not_nan (x : JsNum) (d : ℚ) : (jsOrNum x d).isNan = false := by
  unfold jsOrNum
  split_ifs with h
  · cases x with
    | nan => simp [JsNum.truthy] at h
    | posInf => rfl
    | negInf => rfl
    | num q => rfl
  · rfl

/-- One-decimal rounding preserves non-NaN-ness. -/
theorem jsRound1_not_nan (x : JsNum) (h : x.isNan = false) : (jsRound1 x).isNan = false := by
  cases x with
  | nan => exact absurd h (by simp [JsNum.isNan])
  | posInf => rfl
  | negInf => rfl
  | num q => rfl

/-- The resolved rsrp is never NaN. -/
theorem resolveRsrp_not_nan (m : FieldMapping) (row : Row) :
    (resolveRsrp m row).isNan = false := by
  unfold resolveRsrp
  split_ifs
  · exact jsOrNum_not_nan _ _
  · rfl

/-- The resolved rsrq is never NaN. -/
theorem resolveRsrq_not_nan (m : FieldMapping) (row : Row) :
    (resolveRsrq m row).isNan = false := by
  unfold resolveRsrq
  split_ifs
  · exact jsOrNum_not_nan _ _
  · rfl

/-- The resolved sinr is never NaN. -/
theorem resolveSinr_not_nan (m : FieldMapping) (row : Row) :
    (resolveSinr m row).isNan = false := by
  unfold resolveSinr
  split_ifs
  · exact jsOrNum_not_nan _ _
  · rfl

/-- The resolved throughput is never NaN. -/
theorem resolveThroughput_not_nan (r : ℚ) (m : FieldMapping) (row : Row) :
    (resolveThroughput r m row).isNan = false := by
  unfold resolveThroughput
  split_ifs
  · exact jsOrNum_not_nan _ _
  · rfl

/-- A pair accepted by `isValidCoordinate` consists of finite numbers. -/
theorem isValidCoordinate_finite (a b : JsNum)
    (h : isValidCoordinate (.vnum a) (.vnum b) = true) :
    a.isFinite = true ∧ b.isFinite = true := by
  cases a <;> cases b <;>
    simp [isValidCoordinate, parseFloat, JsNum.isNan, JsNum.geQ, JsNum.leQ,
      JsNum.strictNeQ, JsNum.isFinite] at h ⊢

/-- A `some` result of `mappedCoordinates` passed the validity check. -/
theorem mappedCoordinates_valid (m : FieldMapping) (row : Row) (p : JsNum × JsNum)
    (h : mappedCoordinates m row = some p) :
    isValidCoordinate (.vnum p.1) (.vnum p.2) = true := by
  unfold mappedCoordinates at h
  split_ifs at h with h1 h2
  · obtain rfl : (parseFloat (rowGet row m.latitude), parseFloat (rowGet row m.longitude)) = p :=
      Option.some.inj h
    exact h2

/-- A truthy cell value is neither `undefined` nor the number NaN. -/
theorem truthy_ne_undef_nan (v : JsVal) (h : v.truthy = true) :
    v ≠ .undefined ∧ v ≠ .vnum .nan := by
  cases v with
  | undefined => simp [JsVal.truthy] at h
  | vstr s => exact ⟨fun hc => JsVal.noConfusion hc, fun hc => JsVal.noConfusion hc⟩
  | vnum n =>
    refine ⟨fun hc => JsVal.noConfusion hc, fun hc => ?_⟩
    rw [hc] at h
    simp [JsVal.truthy, JsNum.truthy] at h

/-- The resolved location is neither `undefined` nor NaN. -/
theorem resolveLocation_populated (m : FieldMapping) (index : ℕ) (row : Row) :
    resolveLocation m index row ≠ .undefined ∧ resolveLocation m index row ≠ .vnum .nan := by
  unfold resolveLocation
  split_ifs with h
  · exact truthy_ne_undef_nan _ h.2
  · exact ⟨fun hc => JsVal.noConfusion hc, fun hc => JsVal.noConfusion hc⟩

/-- The resolved coordinates are always finite numbers. -/
theorem resolveCoordinates_finite (a b : ℚ) (m : FieldMapping) (index : ℕ) (row : Row) :
    (resolveCoordinates a b m index row).1.isFinite = true ∧
    (resolveCoordinates a b m index row).2.isFinite = true := by
  unfold resolveCoordinates
  cases hm : mappedCoordinates m row with
  | none => exact ⟨rfl, rfl⟩
  | some p => exact isValidCoordinate_finite _ _ (mappedCoordinates_valid m row p hm)

/-- Every normalized record has all fields populated. -/
theorem processRow_populated (tz : ℤ) (rnd : ℕ → ℚ) (mapping : FieldMapping)
    (index : ℕ) (row : Row) :
    populatedRecord (processRow tz rnd mapping index row) = true := by
  have h1 : (processRow tz rnd mapping index row).rsrp.isNan = false :=
    jsRound1_not_nan _ (resolveRsrp_not_nan mapping row)
  have h2 : (processRow tz rnd mapping index row).rsrq.isNan = false :=
    jsRound1_not_nan _ (resolveRsrq_not_nan mapping row)
  have h3 : (processRow tz rnd mapping index row).sinr.isNan = false :=
    jsRound1_not_nan _ (resolveSinr_not_nan mapping row)
  have h4 : (processRow tz rnd mapping index row).throughput.isNan = false :=
    jsRound1_not_nan _ (resolveThroughput_not_nan (rnd 0) mapping row)
  have h5 := resolveCoordinates_finite (rnd 1) (rnd 2) mapping index row
  have h6 := resolveLocation_populated mapping index row
  unfold populatedRecord
  rw [h1, h2, h3, h4]
  rw [show (processRow tz rnd mapping index row).lat.isFinite
      = (resolveCoordinates (rnd 1) (rnd 2) mapping index row).1.isFinite from rfl, h5.1]
  rw [show (processRow tz rnd mapping index row).lon.isFinite
      = (resolveCoordinates (rnd 1) (rnd 2) mapping index row).2.isFinite from rfl, h5.2]
  have h6a : (processRow tz rnd mapping index row).location ≠ JsVal.undefined := h6.1
  have h6b : (processRow tz rnd mapping index row).location ≠ JsVal.vnum .nan := h6.2
  rw [decide_eq_true h6a, decide_eq_true h6b]
  rfl

/-! ## Claim C8: N rows in, N records out, in order, fully populated -/

/-- The `originalRow` fields of a normalization run started at index `i` are
`i, i+1, …`. -/
theorem mapWithIndex_originalRow (tz : ℤ) (rnd : ℕ → ℕ → ℚ) (mapping : FieldMapping) :
    ∀ (rows : List Row) (i : ℕ),
      (mapWithIndex (fun idx row => processRow tz (rnd idx) mapping idx row) i rows).map
          (fun r => r.originalRow)
        = List.range' i rows.length := by
  intro rows
  induction rows with
  | nil => intro i; rfl
  | cons x xs ih =>
    intro i
    rw [mapWithIndex, List.map_cons, ih (i + 1)]
    rfl

/-- Membership in a normalization run is membership in some `processRow`. -/
theorem mapWithIndex_populated (tz : ℤ) (rnd : ℕ → ℕ → ℚ) (mapping : FieldMapping) :
    ∀ (rows : List Row) (i : ℕ) (r : MeasurementRecord),
      r ∈ mapWithIndex (fun idx row => processRow tz (rnd idx) mapping idx row) i rows →
      populatedRecord r = true := by
  intro rows
  induction rows with
  | nil => intro i r h; exact absurd h (List.not_mem_nil r)
  | cons x xs ih =>
    intro i r h
    rcases List.mem_cons.mp h with h | h
    · subst h
      exact processRow_populated tz (rnd i) mapping i x
    · exact ih (i + 1) r h

/-- **C8.** Normalizing `N` raw rows yields exactly `N` records; the `i`-th
record comes from the `i`-th row (the `originalRow` fields are
`0, 1, …, N-1` in order); and every record has all fields populated (no
`undefined`, no NaN). -/
theorem normalization_count_order_populated :
    ∀ (tz : ℤ) (rnd : ℕ → ℕ → ℚ) (rows : List Row) (mapping : FieldMapping),
      (processCsvData tz rnd rows mapping).length = rows.length ∧
      (processCsvData tz rnd rows mapping).map (fun r => r.originalRow)
        = List.range rows.length ∧
      ∀ r ∈ processCsvData tz rnd rows mapping, populatedRecord r = true := by
  intro tz rnd rows mapping
  have hmap := mapWithIndex_originalRow tz rnd mapping rows 0
  refine ⟨?_, ?_, ?_⟩
  · have := congrArg List.length hmap
    simpa [processCsvData] using this
  · rw [processCsvData, hmap, List.range_eq_range']
  · intro r hr
    exact mapWithIndex_populated tz rnd mapping rows 0 r hr

/-- Witness for C8: the concrete single-row run ([one empty row], empty
mapping) has one populated record with `originalRow = 0`. -/
theorem normalization_count_order_populated_witness :
    populatedRecord (processRow 0 (zeroRand2 0) FieldMapping.empty 0 []) = true :=
  (normalization_count_order_populated 0 zeroRand2 [[]] FieldMapping.empty).2.2
    (processRow 0 (zeroRand2 0) FieldMapping.empty 0 []) (List.mem_singleton_self _)

/-! ## Claim C9: every normalized record has valid coordinates -/

/-- The jittered fallback around the default center is always a valid,
non-sentinel coordinate pair, provided the two random values lie in
`[0, 1)`. -/
theorem fallbackCoordinates_valid (a b : ℚ) (i : ℕ)
    (ha : 0 ≤ a) (ha' : a < 1) (hb : 0 ≤ b) (hb' : b < 1) :
    isValidCoordinate (.vnum (fallbackCoordinates a b i).1)
      (.vnum (fallbackCoordinates a b i).2) = true := by
  have hja : (0 : ℚ) ≤ ((i % 100 : ℕ) : ℚ) / 1000 := by positivity
  have hja' : ((i % 100 : ℕ) : ℚ) / 1000 ≤ 99 / 1000 := by
    have h : (i % 100 : ℕ) ≤ 99 := Nat.lt_succ_iff.mp (Nat.mod_lt _ (by norm_num))
    have h' : ((i % 100 : ℕ) : ℚ) ≤ 99 := by exact_mod_cast h
    linarith
  have hjb : (0 : ℚ) ≤ ((i * 7 % 100 : ℕ) : ℚ) / 1000 := by positivity
  have hjb' : ((i * 7 % 100 : ℕ) : ℚ) / 1000 ≤ 99 / 1000 := by
    have h : (i * 7 % 100 : ℕ) ≤ 99 := Nat.lt_succ_iff.mp (Nat.mod_lt _ (by norm_num))
    have h' : ((i * 7 % 100 : ℕ) : ℚ) ≤ 99 := by exact_mod_cast h
    linarith
  have hlat : centerLat + (a - 0.5) * 0.05 + ((i % 100 : ℕ) : ℚ) / 1000 < 0 := by
    rw [centerLat]
    nlinarith
  have hlon : 0 < centerLon + (b - 0.5) * 0.07 + ((i * 7 % 100 : ℕ) : ℚ) / 1000 := by
    rw [centerLon]
    nlinarith
  have hlat90 : -90 ≤ centerLat + (a - 0.5) * 0.05 + ((i % 100 : ℕ) : ℚ) / 1000 := by
    rw [centerLat]
    nlinarith
  have hlon180 : centerLon + (b - 0.5) * 0.07 + ((i * 7 % 100 : ℕ) : ℚ) / 1000 ≤ 180 := by
    rw [centerLon]
    nlinarith
  have hlonm180 : -180 ≤ centerLon + (b - 0.5) * 0.07 + ((i * 7 % 100 : ℕ) : ℚ) / 1000 := by
    linarith
  have hlat90' : centerLat + (a - 0.5) * 0.05 + ((i % 100 : ℕ) : ℚ) / 1000 ≤ 90 := by
    linarith
  unfold fallbackCoordinates isValidCoordinate parseFloat
  simp only [JsNum.isNan, JsNum.geQ, JsNum.leQ, JsNum.strictNeQ, Bool.not_false,
    Bool.true_and, Bool.and_eq_true, decide_eq_true_eq]
  exact ⟨⟨⟨⟨⟨hlat90, hlat90'⟩, hlonm180⟩, hlon180⟩, ne_of_lt hlat⟩, ne_of_gt hlon⟩

/-- The resolved coordinates of any row are valid (the mapped branch was
explicitly validated; the fallback is valid by construction). -/
theorem resolveCoordinates_valid (a b : ℚ) (m : FieldMapping) (index : ℕ) (row : Row)
    (ha : 0 ≤ a) (ha' : a < 1) (hb : 0 ≤ b) (hb' : b < 1) :
    isValidCoordinate (.vnum (resolveCoordinates a b m index row).1)
      (.vnum (resolveCoordinates a b m index row).2) = true := by
  unfold resolveCoordinates
  cases hm : mappedCoordinates m row with
  | none => exact fallbackCoordinates_valid a b index ha ha' hb hb'
  | some p => exact mappedCoordinates_valid m row p hm

/-- **C9.** Provided every `Math.random()` value lies in `[0, 1)`, every
record produced by normalization satisfies `isValidCoordinate` on its stored
coordinates — whether they came from mapped columns or from the jittered
fallback. -/
theorem normalized_coordinates_valid :
    ∀ (tz : ℤ) (rnd : ℕ → ℕ → ℚ) (rows : List Row) (mapping : FieldMapping),
      (∀ i j, 0 ≤ rnd i j ∧ rnd i j < 1) →
      ∀ r ∈ processCsvData tz rnd rows mapping,
        isValidCoordinate (.vnum r.lat) (.vnum r.lon) = true := by
  intro tz rnd rows mapping hr
  have main : ∀ (rows' : List Row) (i : ℕ) (r : MeasurementRecord),
      r ∈ mapWithIndex (fun idx row => processRow tz (rnd idx) mapping idx row) i rows' →
      isValidCoordinate (.vnum r.lat) (.vnum r.lon) = true := by
    intro rows'
    induction rows' with
    | nil => intro i r h; exact absurd h (List.not_mem_nil r)
    | cons x xs ih =>
      intro i r h
      rcases List.mem_cons.mp h with h | h
      · subst h
        exact resolveCoordinates_valid (rnd i 1) (rnd i 2) mapping i x
          (hr i 1).1 (hr i 1).2 (hr i 2).1 (hr i 2).2
      · exact ih (i + 1) r h
  exact main rows 0

/-- Witness for C9: the all-zero random oracle on a single empty row. -/
theorem normalized_coordinates_valid_witness :
    isValidCoordinate (.vnum (processRow 0 (zeroRand2 0) FieldMapping.empty 0 []).lat)
      (.vnum (processRow 0 (zeroRand2 0) FieldMapping.empty 0 []).lon) = true :=
  normalized_coordinates_valid 0 zeroRand2 [[]] FieldMapping.empty
    (fun _ _ => ⟨le_refl 0, by show (0 : ℚ) < 1; norm_num⟩)
    (processRow 0 (zeroRand2 0) FieldMapping.empty 0 []) (List.mem_singleton_self _)

/-! ## Claim C10: the query engine is total -/

/-- Stable insertion grows the length by one. -/
theorem insertLe_length {α : Type} (le : α → α → Bool) (x : α) (l : List α) :
    (insertLe le x l).length = l.length + 1 := by
  induction l with
  | nil => rfl
  | cons y ys ih =>
    unfold insertLe
    split_ifs
    · rfl
    · simpa using ih

/-- Stable sorting preserves the length. -/
theorem sortStable_length {α : Type} (le : α → α → Bool) (l : List α) :
    (sortStable le l).length = l.length := by
  induction l with
  | nil => rfl
  | cons y ys ih =>
    unfold sortStable
    rw [insertLe_length, ih]
    rfl

/-- Every intent of the dispatcher answers on a non-empty subset: the only
`none` (exception) source — indexing the sorted array in the worst-RSRP
intent — is unreachable. -/
theorem dispatch_isSome (data subset : List MeasurementRecord) (q : String)
    (h : subset.length ≠ 0) : (dispatch data subset q).isSome = true := by
  unfold dispatch
  by_cases c1 : jsIncludes q "columns" = true ∨ jsIncludes q "schema" = true ∨
      jsIncludes q "headers" = true
  · rw [if_pos c1]; rfl
  rw [if_neg c1]
  by_cases c2 : jsIncludes q "count" = true ∨ jsIncludes q "how many" = true ∨
      jsIncludes q "rows" = true ∨ jsIncludes q "measurements" = true
  · rw [if_pos c2]; rfl
  rw [if_neg c2]
  by_cases c3 : jsIncludes q "average throughput" = true ∨
      jsIncludes q "avg throughput" = true ∨ jsIncludes q "throughput mean" = true
  · rw [if_pos c3]; rfl
  rw [if_neg c3]
  by_cases c4 : jsIncludes q "average rsrp" = true ∨ jsIncludes q "avg rsrp" = true
  · rw [if_pos c4]; rfl
  rw [if_neg c4]
  by_cases c5 : jsIncludes q "average rsrq" = true ∨ jsIncludes q "avg rsrq" = true
  · rw [if_pos c5]; rfl
  rw [if_neg c5]
  by_cases c6 : jsIncludes q "average sinr" = true ∨ jsIncludes q "avg sinr" = true
  · rw [if_pos c6]; rfl
  rw [if_neg c6]
  by_cases c7 : jsIncludes q "class 1" = true ∧ (jsIncludes q "percent" = true ∨
      jsIncludes q "coverage" = true ∨ jsIncludes q "share" = true)
  · rw [if_pos c7]; rfl
  rw [if_neg c7]
  by_cases c8 : matchTopTest "top" q.toList = true
  · rw [if_pos c8]; rfl
  rw [if_neg c8]
  by_cases c9 : matchTopTest "bottom" q.toList = true
  · rw [if_pos c9]; rfl
  rw [if_neg c9]
  by_cases c10 : jsIncludes q "percentile" = true ∧ jsIncludes q "throughput" = true
  · rw [if_pos c10]; rfl
  rw [if_neg c10]
  by_cases c11 : jsIncludes q "worst rsrp" = true ∨ jsIncludes q "lowest rsrp" = true
  · rw [if_pos c11]
    cases hh : (sortStable (fun a b => jsRsrpLe a.rsrp b.rsrp) subset).head? with
    | some w => rfl
    | none =>
      exfalso
      apply h
      have hnil := List.head?_eq_none_iff.mp hh
      have hlen := sortStable_length (fun a b => jsRsrpLe a.rsrp b.rsrp) subset
      rw [hnil] at hlen
      simpa using hlen.symm
  rw [if_neg c11]
  rfl

/-- **C10.** For every question string, dataset and external technology
selector, `askLocalAI` never throws: it always returns an answer string; and
whenever the filtered subset is empty it returns the fixed "no matching
rows" message without dispatching any intent. -/
theorem query_engine_total :
    ∀ (data : List MeasurementRecord) (selectedTech question : String),
      (askLocalAI data selectedTech question).isSome = true ∧
      (applyFilters data selectedTech (toLowerString question) = [] →
        askLocalAI data selectedTech question = some noMatchingRowsMsg) := by
  intro data st question
  constructor
  · unfold askLocalAI
    split_ifs with h
    · rfl
    · exact dispatch_isSome _ _ _ h
  · intro h
    unfold askLocalAI
    rw [h]
    rfl

/-- Witness for C10: on the empty dataset every question filters to the
empty subset and yields the fixed message. -/
theorem query_engine_total_witness :
    askLocalAI [] "All" "anything at all" = some noMatchingRowsMsg :=
  (query_engine_total [] "All" "anything at all").2 (by decide)

/-! ## Claim C1: the percentile intent and its default -/

/-- The failing question: it matches the percentile-throughput intent and
contains no "Nth percentile" number. -/
def percentileQuestion : String := "what is the percentile of throughput"

/-- Lowercasing the user's spelling of the failing question. -/
theorem percentileQuestion_lower :
    toLowerString "What is the percentile of throughput" = percentileQuestion := by decide

/-- No filter of the question narrows the one-record dataset. -/
theorem percentileQuestion_filters :
    applyFilters [sampleRecord] "All" percentileQuestion = [sampleRecord] := by
  with_unfolding_all decide

/-- The dispatcher reaches the percentile intent on the failing question and
computes the 1st percentile. -/
theorem percentileQuestion_dispatch :
    dispatch [sampleRecord] [sampleRecord] percentileQuestion
      = some "1th percentile throughput ≈ 80.0 Mbps (80000 kbps)." := by
  have h1 : ¬ (jsIncludes percentileQuestion "columns"
      ∨ jsIncludes percentileQuestion "schema"
      ∨ jsIncludes percentileQuestion "headers") := by decide
  have h2 : ¬ (jsIncludes percentileQuestion "count"
      ∨ jsIncludes percentileQuestion "how many"
      ∨ jsIncludes percentileQuestion "rows"
      ∨ jsIncludes percentileQuestion "measurements") := by decide
  have h3 : ¬ (jsIncludes percentileQuestion "average throughput"
      ∨ jsIncludes percentileQuestion "avg throughput"
      ∨ jsIncludes percentileQuestion "throughput mean") := by decide
  have h4 : ¬ (jsIncludes percentileQuestion "average rsrp"
      ∨ jsIncludes percentileQuestion "avg rsrp") := by decide
  have h5 : ¬ (jsIncludes percentileQuestion "average rsrq"
      ∨ jsIncludes percentileQuestion "avg rsrq") := by decide
  have h6 : ¬ (jsIncludes percentileQuestion "average sinr"
      ∨ jsIncludes percentileQuestion "avg sinr") := by decide
  have h7 : ¬ (jsIncludes percentileQuestion "class 1"
      ∧ (jsIncludes percentileQuestion "percent"
        ∨ jsIncludes percentileQuestion "coverage"
        ∨ jsIncludes percentileQuestion "share")) := by decide
  have h8 : ¬ (matchTopTest "top" percentileQuestion.toList = true) := by decide
  have h9 : ¬ (matchTopTest "bottom" percentileQuestion.toList = true) := by decide
  have h10 : (jsIncludes percentileQuestion "percentile"
      ∧ jsIncludes percentileQuestion "throughput") := by decide
  have hp : clampInt (jsOrZero (matchNth percentileQuestion.toList)) 1 99 = 1 := by decide
  have hval : percentile [sampleRecord] (fun r => r.throughput) 1 = 80 := by
    with_unfolding_all decide
  have hf1 : fmt1 80 = "80.0" := by with_unfolding_all rfl
  have hfk : fmtKbps (80 * 1000) = "80000 kbps" := by with_unfolding_all rfl
  unfold dispatch
  rw [if_neg h1, if_neg h2, if_neg h3, if_neg h4, if_neg h5, if_neg h6, if_neg h7,
      if_neg h8, if_neg h9, if_pos h10]
  simp only []
  rw [hp, hval, hf1, hfk]
  rfl

/-- **C1.** On a question matching the percentile-throughput intent with no
"Nth percentile" number present, the engine computes the **1st** percentile,
not the documented 95th: the fallback `(q.match(...) || ['95'])` is indexed
at 1, and element 1 of the one-element array `['95']` is `undefined`, so
`clampInt` receives `undefined | 0 === 0` and clamps it up to 1.  Evaluated
end-to-end on a one-record dataset with throughput 80 Mbps. -/
theorem percentile_default_bug :
    percentileParam percentileQuestion = 1 ∧
    askLocalAI [sampleRecord] "All" "What is the percentile of throughput"
      = some "1th percentile throughput ≈ 80.0 Mbps (80000 kbps)." := by
  constructor
  · decide
  · unfold askLocalAI
    rw [percentileQuestion_lower, percentileQuestion_filters]
    simpa using percentileQuestion_dispatch

end DriveTest


